import Mathlib

/-!
Verification of the vmark hot-exit subsystem (src-tauri/src/hot_exit/):
session schema and staleness checks (session.rs), schema migration
(migration.rs), atomic durable storage (storage.rs), and the multi-window
capture/restore coordinator (coordinator.rs).

The Rust code is shallowly embedded: pure functions become Lean functions;
effectful code (file I/O, window creation, event emission) is made explicit
by passing the file-system state and success/failure oracles as parameters
and by returning event traces.  Machine integers are modelled as `Nat`/`Int`
with explicit two's-complement wrapping where Rust release-mode overflow
semantics matter.
-/

namespace VmarkHotExit

/-! ### JSON document trees

Model of `serde_json::Value` at the document level.  The text layer
(`serde_json::to_string_pretty` followed by `serde_json::from_str`) is the
identity on document trees for the values produced here, so serialization is
modelled as a tree.  Numbers are modelled as exact values; the one
floating-point field in the schema (`percent_in_line: f32`) is modelled by
`F32` below, which distinguishes finite values (carried exactly) from
non-finite ones (which serde_json serializes as `null`). -/
inductive Json where
  | null
  | bool (b : Bool)
  | num (n : Int)
  | str (s : String)
  | arr (elems : List Json)
  | obj (fields : List (String × Json))

/-! ### Data model (session.rs, lines 17-96) -/

/-- Schema version for hot exit sessions (session.rs line 8). -/
def SCHEMA_VERSION : Nat := 1

/-- Maximum session age in days before considering it stale (session.rs line 11). -/
def MAX_SESSION_AGE_DAYS : Int := 7

/-- Seconds per day constant (session.rs line 14). -/
def SECONDS_PER_DAY : Int := 86400

/-- Window geometry (session.rs lines 83-89).  `x`,`y` are `i32`; `width`,
`height` are `u32`. -/
structure WindowGeometry where
  x : Int
  y : Int
  width : Nat
  height : Nat

/-- UI state flags (session.rs lines 71-81). -/
structure UiState where
  sidebar_visible : Bool
  sidebar_width : Nat
  outline_visible : Bool
  sidebar_view_mode : String
  status_bar_visible : Bool
  source_mode_enabled : Bool
  focus_mode_enabled : Bool
  typewriter_mode_enabled : Bool

/-- Model of an `f32` value as serde_json sees it.  A finite float is
carried as its exact numeric value (finite floats round-trip losslessly
through serde_json's shortest-form printing, so the exact value determines
the serialized text and back); NaN and the infinities are collapsed into the
one non-finite case, which serde_json serializes as `null` and refuses to
parse back into an `f32`. -/
inductive F32 where
  | finite (val : Int)
  | nonfinite

/-- Cursor information (session.rs lines 59-69).  `percent_in_line: f32` is
modelled by `F32` and `block_anchor: Option<serde_json::Value>` as an
optional JSON tree. -/
structure CursorInfo where
  source_line : Nat
  word_at_cursor : String
  offset_in_word : Nat
  node_type : String
  percent_in_line : F32
  context_before : String
  context_after : String
  block_anchor : Option Json

/-- Document state (session.rs lines 45-57). -/
structure DocumentState where
  content : String
  saved_content : String
  is_dirty : Bool
  is_missing : Bool
  is_divergent : Bool
  line_ending : String
  cursor_info : Option CursorInfo
  last_modified_timestamp : Option Int
  is_untitled : Bool
  untitled_number : Option Nat

/-- Tab state (session.rs lines 36-43). -/
structure TabState where
  id : String
  file_path : Option String
  title : String
  is_pinned : Bool
  document : DocumentState

/-- One window's full UI and document state (session.rs lines 26-34). -/
structure WindowState where
  window_label : String
  is_main_window : Bool
  active_tab_id : Option String
  tabs : List TabState
  ui_state : UiState
  geometry : Option WindowGeometry

/-- Workspace state (session.rs lines 91-96). -/
structure WorkspaceState where
  root_path : Option String
  is_workspace_mode : Bool
  show_hidden_files : Bool

/-- Complete application session state (session.rs lines 17-24). -/
structure SessionData where
  version : Nat
  timestamp : Int
  vmark_version : String
  windows : List WindowState
  workspace : Option WorkspaceState

/-! ### Staleness check (session.rs lines 124-148) -/

/-- Two's-complement wrap into the `i64` range, modelling Rust release-mode
wrapping subtraction. -/
def wrap_i64 (n : Int) : Int := (n + 2 ^ 63) % 2 ^ 64 - 2 ^ 63

/-- Model of `i64::checked_mul`: the product, or `none` when it leaves the
`i64` range (session.rs line 141 uses `checked_mul`). -/
def checked_mul_i64 (a b : Int) : Option Int :=
  if -(2 ^ 63) ≤ a * b ∧ a * b < 2 ^ 63 then some (a * b) else none

/-- Model of `SessionData::is_stale` (session.rs lines 124-148).  `now` is
the ambient clock value `chrono::Utc::now().timestamp()`, passed explicitly.
The subtraction `now - self.timestamp` wraps in release mode; the
days-to-seconds multiplication uses `checked_mul` and treats overflow as
stale. -/
def is_stale (now timestamp max_age_days : Int) : Bool :=
  if max_age_days ≤ 0 then true
  else
    let age_seconds := wrap_i64 (now - timestamp)
    if age_seconds < 0 then true
    else
      match checked_mul_i64 max_age_days SECONDS_PER_DAY with
      | some max_age_seconds => decide (age_seconds > max_age_seconds)
      | none => true

/-! ### Migration engine (migration.rs) -/

/-- Minimum supported version for migration (migration.rs line 15). -/
def MIN_SUPPORTED_VERSION : Nat := 1

/-- Model of `can_migrate` (migration.rs lines 18-31). -/
def can_migrate (version : Nat) : Bool :=
  if version < MIN_SUPPORTED_VERSION then false
  else if version ≤ SCHEMA_VERSION then true
  else false

/-- Model of `migrate_to_next_version` (migration.rs lines 61-69) together
with `migrate_v1_to_v2` (lines 79-84), which only bumps the version. -/
def migrate_to_next_version (session : SessionData) : Except String SessionData :=
  match session.version with
  | 1 => .ok { session with version := 2 }
  | _ => .error "No migration path"

/-- The `while session.version < SCHEMA_VERSION` loop of `migrate_session`
(migration.rs lines 51-53). -/
def migrate_loop (session : SessionData) : Except String SessionData :=
  if _h : session.version < SCHEMA_VERSION then
    match hm : migrate_to_next_version session with
    | .error e => .error e
    | .ok s => migrate_loop s
  else .ok session
termination_by SCHEMA_VERSION - session.version
decreasing_by
  exfalso
  have hv : session.version = 0 := by
    simp [SCHEMA_VERSION] at _h
    omega
  rw [migrate_to_next_version, hv] at hm
  simp at hm

/-- Model of `migrate_session` (migration.rs lines 36-56). -/
def migrate_session (session : SessionData) : Except String SessionData :=
  if can_migrate session.version = false then .error "Cannot migrate session"
  else if session.version = SCHEMA_VERSION then .ok session
  else migrate_loop session

/-- Model of `needs_migration` (migration.rs lines 87-89). -/
def needs_migration (session : SessionData) : Bool :=
  session.version < SCHEMA_VERSION

/-! ### Claim C6: staleness check -/

/-- C6: for every session and every `max_age_days`, `is_stale` returns true
iff `max_age_days <= 0`, or the timestamp is in the future relative to
`now`, or `max_age_days * 86400` overflows `i64`, or
`now - timestamp > max_age_days * 86400`.  The function is total (it never
panics): overflow in the multiplication is handled by `checked_mul`.  The
hypotheses confine the inputs to their Rust types: `timestamp` and
`max_age_days` are arbitrary `i64` values and `now` is a non-negative clock
reading. -/
theorem is_stale_iff (now timestamp max_age_days : Int)
    (hnow : 0 ≤ now ∧ now < 2 ^ 63)
    (hts : -(2 ^ 63) ≤ timestamp ∧ timestamp < 2 ^ 63)
    (hd : -(2 ^ 63) ≤ max_age_days ∧ max_age_days < 2 ^ 63) :
    is_stale now timestamp max_age_days = true ↔
      (max_age_days ≤ 0 ∨ now < timestamp ∨
        ¬(-(2 ^ 63) ≤ max_age_days * 86400 ∧ max_age_days * 86400 < 2 ^ 63) ∨
        now - timestamp > max_age_days * 86400) := by
  obtain ⟨hn0, hn1⟩ := hnow
  obtain ⟨ht0, ht1⟩ := hts
  obtain ⟨hd0, hd1⟩ := hd
  have hw : (wrap_i64 (now - timestamp) = now - timestamp ∧ now - timestamp < 2 ^ 63) ∨
      (wrap_i64 (now - timestamp) = now - timestamp - 2 ^ 64 ∧ 2 ^ 63 ≤ now - timestamp) := by
    unfold wrap_i64
    omega
  by_cases h1 : max_age_days ≤ 0
  · simp only [is_stale, if_pos h1]
    exact iff_of_true trivial (Or.inl h1)
  · by_cases hov : -(2 ^ 63) ≤ max_age_days * 86400 ∧ max_age_days * 86400 < 2 ^ 63
    · have hcm : checked_mul_i64 max_age_days SECONDS_PER_DAY = some (max_age_days * 86400) := by
        unfold checked_mul_i64 SECONDS_PER_DAY
        exact if_pos hov
      simp only [is_stale, if_neg h1, hcm]
      by_cases hneg : wrap_i64 (now - timestamp) < 0
      · simp only [if_pos hneg]
        refine iff_of_true trivial ?_
        rcases hw with ⟨he, hb⟩ | ⟨he, hb⟩
        · exact Or.inr (Or.inl (by omega))
        · exact Or.inr (Or.inr (Or.inr (by omega)))
      · simp only [if_neg hneg, decide_eq_true_eq, gt_iff_lt]
        constructor
        · intro hgt
          rcases hw with ⟨he, hb⟩ | ⟨he, hb⟩
          · exact Or.inr (Or.inr (Or.inr (by omega)))
          · exact Or.inr (Or.inr (Or.inr (by omega)))
        · intro hor
          rcases hor with h | h | h | h
          · exact absurd h h1
          · rcases hw with ⟨he, hb⟩ | ⟨he, hb⟩ <;> omega
          · exact absurd hov h
          · rcases hw with ⟨he, hb⟩ | ⟨he, hb⟩ <;> omega
    · have hcm : checked_mul_i64 max_age_days SECONDS_PER_DAY = none := by
        simp only [checked_mul_i64, SECONDS_PER_DAY]
        rw [if_neg hov]
      simp only [is_stale, if_neg h1, hcm]
      by_cases hneg : wrap_i64 (now - timestamp) < 0
      · simp only [if_pos hneg]
        exact iff_of_true trivial (Or.inr (Or.inr (Or.inl hov)))
      · simp only [if_neg hneg]
        exact iff_of_true trivial (Or.inr (Or.inr (Or.inl hov)))

/-- Witness for C6 at a concrete input: `now = 604801`, `timestamp = 0`,
`max_age_days = 7`; the session is 604801 seconds old, which exceeds
`7 * 86400 = 604800`, so it is stale. -/
theorem is_stale_iff_witness :
    ((0:Int) ≤ 604801 ∧ (604801:Int) < 2 ^ 63) ∧
      is_stale 604801 0 7 = true :=
  ⟨by constructor <;> decide,
    (is_stale_iff 604801 0 7 (by constructor <;> decide)
      (by constructor <;> decide) (by constructor <;> decide)).mpr
      (Or.inr (Or.inr (Or.inr (by decide))))⟩

/-! ### Claim C7: migration version window -/

/-- C7: every version in `[MIN_SUPPORTED_VERSION, SCHEMA_VERSION]` can be
migrated (including the current version as a no-op); version 0 and every
version above the current one cannot; and `migrate_session` on a session
already at the current version returns it unchanged. -/
theorem can_migrate_window :
    (∀ v : Nat, MIN_SUPPORTED_VERSION ≤ v → v ≤ SCHEMA_VERSION → can_migrate v = true) ∧
    can_migrate 0 = false ∧
    (∀ v : Nat, SCHEMA_VERSION < v → can_migrate v = false) ∧
    (∀ s : SessionData, s.version = SCHEMA_VERSION → migrate_session s = .ok s) := by
  refine ⟨?_, rfl, ?_, ?_⟩
  · intro v h1 h2
    unfold can_migrate
    simp only [MIN_SUPPORTED_VERSION] at h1 ⊢
    rw [if_neg (by omega), if_pos h2]
  · intro v h
    unfold can_migrate MIN_SUPPORTED_VERSION SCHEMA_VERSION
    simp only [SCHEMA_VERSION] at h
    rw [if_neg (by omega), if_neg (by omega)]
  · intro s hs
    unfold migrate_session
    rw [hs]
    simp [can_migrate, MIN_SUPPORTED_VERSION, SCHEMA_VERSION]

/-- A concrete empty session at the current schema version, used by
witnesses. -/
def sampleCurrentSession : SessionData :=
  { version := SCHEMA_VERSION
    timestamp := 0
    vmark_version := "0.3.18"
    windows := []
    workspace := none }

/-- Witness for C7 at concrete inputs: version 1 (the current version) is
migratable, versions 0 and 2 are not, and migrating a version-1 session
returns it unchanged. -/
theorem can_migrate_window_witness :
    (MIN_SUPPORTED_VERSION ≤ 1 ∧ (1:Nat) ≤ SCHEMA_VERSION) ∧
      can_migrate 1 = true ∧ can_migrate 0 = false ∧ can_migrate 2 = false ∧
      migrate_session sampleCurrentSession = .ok sampleCurrentSession := by
  have h := can_migrate_window
  exact ⟨⟨by decide, by decide⟩,
    h.1 1 (by decide) (by decide),
    h.2.1,
    h.2.2.1 2 (by decide),
    h.2.2.2 sampleCurrentSession rfl⟩

/-! ### Serialization model

Model of the derived serde `Serialize`/`Deserialize` implementations for the
session structs: a struct serializes to a JSON object with one entry per
field (in declaration order); `Option<T>` serializes `None` as `null` and
`Some(v)` as the serialization of `v`, and on deserialization a missing or
`null` field of type `Option<T>` becomes `None`; `serde_json::Value`
serializes as itself. -/

/-- Encode an optional value (`None` becomes `null`). -/
def encode_option (f : α → Json) : Option α → Json
  | none => Json.null
  | some v => f v

/-- Look up a field of a JSON object by name. -/
def get_field : List (String × Json) → String → Option Json
  | [], _ => none
  | (k, v) :: rest, key => if k = key then some v else get_field rest key

/-- Decode a JSON boolean. -/
def decode_bool : Json → Option Bool
  | .bool b => some b
  | _ => none

/-- Decode a JSON string. -/
def decode_string : Json → Option String
  | .str s => some s
  | _ => none

/-- Decode a signed integer. -/
def decode_int : Json → Option Int
  | .num n => some n
  | _ => none

/-- Decode an unsigned integer. -/
def decode_nat : Json → Option Nat
  | .num n => if n < 0 then none else some n.toNat
  | _ => none

/-- Decode a `serde_json::Value`: any JSON document is accepted. -/
def decode_json : Json → Option Json := fun j => some j

/-- Decode an optional value: `null` becomes `None`, anything else is decoded
with `f` (this is serde's `Option<T>` behavior, under which `Some(Value::Null)`
and `None` serialize identically). -/
def decode_option (f : Json → Option α) : Json → Option (Option α)
  | .null => some none
  | j => (f j).map some

/-- Decode a JSON array elementwise (serde sequence deserialization). -/
def decode_list (dec : Json -> Option A) : List Json -> Option (List A)
  | [] => some []
  | j :: rest => do
      let x <- dec j
      let xs <- decode_list dec rest
      pure (x :: xs)

/-- Read an `Option<T>` field: missing and `null` both give `None`. -/
def get_option_field (fields : List (String × Json)) (key : String)
    (f : Json → Option α) : Option (Option α) :=
  match get_field fields key with
  | none => some none
  | some j => decode_option f j

/-- Serialize a `WindowGeometry`. -/
def encode_geometry (g : WindowGeometry) : Json :=
  .obj [("x", .num g.x), ("y", .num g.y),
        ("width", .num (g.width : Int)), ("height", .num (g.height : Int))]

/-- Deserialize a `WindowGeometry`. -/
def decode_geometry : Json → Option WindowGeometry
  | .obj fields => do
      let x ← get_field fields "x" >>= decode_int
      let y ← get_field fields "y" >>= decode_int
      let width ← get_field fields "width" >>= decode_nat
      let height ← get_field fields "height" >>= decode_nat
      pure { x, y, width, height }
  | _ => none

/-- Serialize a `UiState`. -/
def encode_ui_state (u : UiState) : Json :=
  .obj [("sidebar_visible", .bool u.sidebar_visible),
        ("sidebar_width", .num (u.sidebar_width : Int)),
        ("outline_visible", .bool u.outline_visible),
        ("sidebar_view_mode", .str u.sidebar_view_mode),
        ("status_bar_visible", .bool u.status_bar_visible),
        ("source_mode_enabled", .bool u.source_mode_enabled),
        ("focus_mode_enabled", .bool u.focus_mode_enabled),
        ("typewriter_mode_enabled", .bool u.typewriter_mode_enabled)]

/-- Deserialize a `UiState`. -/
def decode_ui_state : Json → Option UiState
  | .obj fields => do
      let sidebar_visible ← get_field fields "sidebar_visible" >>= decode_bool
      let sidebar_width ← get_field fields "sidebar_width" >>= decode_nat
      let outline_visible ← get_field fields "outline_visible" >>= decode_bool
      let sidebar_view_mode ← get_field fields "sidebar_view_mode" >>= decode_string
      let status_bar_visible ← get_field fields "status_bar_visible" >>= decode_bool
      let source_mode_enabled ← get_field fields "source_mode_enabled" >>= decode_bool
      let focus_mode_enabled ← get_field fields "focus_mode_enabled" >>= decode_bool
      let typewriter_mode_enabled ← get_field fields "typewriter_mode_enabled" >>= decode_bool
      pure { sidebar_visible, sidebar_width, outline_visible, sidebar_view_mode,
             status_bar_visible, source_mode_enabled, focus_mode_enabled,
             typewriter_mode_enabled }
  | _ => none

/-- Serialize an `f32`: a finite value as a number, a non-finite value as
`null` (serde_json's documented behavior for NaN and infinities). -/
def encode_f32 : F32 → Json
  | .finite v => .num v
  | .nonfinite => .null

/-- Deserialize an `f32`: only a JSON number is accepted; in particular
`null` (the serialization of a non-finite float) fails to parse. -/
def decode_f32 : Json → Option F32
  | .num n => some (.finite n)
  | _ => none

/-- Serialize a `CursorInfo`. -/
def encode_cursor_info (c : CursorInfo) : Json :=
  .obj [("source_line", .num (c.source_line : Int)),
        ("word_at_cursor", .str c.word_at_cursor),
        ("offset_in_word", .num (c.offset_in_word : Int)),
        ("node_type", .str c.node_type),
        ("percent_in_line", encode_f32 c.percent_in_line),
        ("context_before", .str c.context_before),
        ("context_after", .str c.context_after),
        ("block_anchor", encode_option (fun j => j) c.block_anchor)]

/-- Deserialize a `CursorInfo`. -/
def decode_cursor_info : Json → Option CursorInfo
  | .obj fields => do
      let source_line ← get_field fields "source_line" >>= decode_nat
      let word_at_cursor ← get_field fields "word_at_cursor" >>= decode_string
      let offset_in_word ← get_field fields "offset_in_word" >>= decode_nat
      let node_type ← get_field fields "node_type" >>= decode_string
      let percent_in_line ← get_field fields "percent_in_line" >>= decode_f32
      let context_before ← get_field fields "context_before" >>= decode_string
      let context_after ← get_field fields "context_after" >>= decode_string
      let block_anchor ← get_option_field fields "block_anchor" decode_json
      pure { source_line, word_at_cursor, offset_in_word, node_type,
             percent_in_line, context_before, context_after, block_anchor }
  | _ => none

/-- Serialize a `DocumentState`. -/
def encode_document_state (d : DocumentState) : Json :=
  .obj [("content", .str d.content),
        ("saved_content", .str d.saved_content),
        ("is_dirty", .bool d.is_dirty),
        ("is_missing", .bool d.is_missing),
        ("is_divergent", .bool d.is_divergent),
        ("line_ending", .str d.line_ending),
        ("cursor_info", encode_option encode_cursor_info d.cursor_info),
        ("last_modified_timestamp", encode_option (fun n : Int => .num n) d.last_modified_timestamp),
        ("is_untitled", .bool d.is_untitled),
        ("untitled_number", encode_option (fun n : Nat => .num (n : Int)) d.untitled_number)]

/-- Deserialize a `DocumentState`. -/
def decode_document_state : Json → Option DocumentState
  | .obj fields => do
      let content ← get_field fields "content" >>= decode_string
      let saved_content ← get_field fields "saved_content" >>= decode_string
      let is_dirty ← get_field fields "is_dirty" >>= decode_bool
      let is_missing ← get_field fields "is_missing" >>= decode_bool
      let is_divergent ← get_field fields "is_divergent" >>= decode_bool
      let line_ending ← get_field fields "line_ending" >>= decode_string
      let cursor_info ← get_option_field fields "cursor_info" decode_cursor_info
      let last_modified_timestamp ← get_option_field fields "last_modified_timestamp" decode_int
      let is_untitled ← get_field fields "is_untitled" >>= decode_bool
      let untitled_number ← get_option_field fields "untitled_number" decode_nat
      pure { content, saved_content, is_dirty, is_missing, is_divergent,
             line_ending, cursor_info, last_modified_timestamp, is_untitled,
             untitled_number }
  | _ => none

/-- Serialize a `TabState`. -/
def encode_tab_state (t : TabState) : Json :=
  .obj [("id", .str t.id),
        ("file_path", encode_option Json.str t.file_path),
        ("title", .str t.title),
        ("is_pinned", .bool t.is_pinned),
        ("document", encode_document_state t.document)]

/-- Deserialize a `TabState`. -/
def decode_tab_state : Json → Option TabState
  | .obj fields => do
      let id ← get_field fields "id" >>= decode_string
      let file_path ← get_option_field fields "file_path" decode_string
      let title ← get_field fields "title" >>= decode_string
      let is_pinned ← get_field fields "is_pinned" >>= decode_bool
      let document ← get_field fields "document" >>= decode_document_state
      pure { id, file_path, title, is_pinned, document }
  | _ => none

/-- Serialize a `WindowState`. -/
def encode_window_state (w : WindowState) : Json :=
  .obj [("window_label", .str w.window_label),
        ("is_main_window", .bool w.is_main_window),
        ("active_tab_id", encode_option Json.str w.active_tab_id),
        ("tabs", .arr (w.tabs.map encode_tab_state)),
        ("ui_state", encode_ui_state w.ui_state),
        ("geometry", encode_option encode_geometry w.geometry)]

/-- Deserialize a `WindowState`. -/
def decode_window_state : Json → Option WindowState
  | .obj fields => do
      let window_label ← get_field fields "window_label" >>= decode_string
      let is_main_window ← get_field fields "is_main_window" >>= decode_bool
      let active_tab_id ← get_option_field fields "active_tab_id" decode_string
      let tabsJson ← get_field fields "tabs"
      let tabs ← match tabsJson with
        | .arr elems => decode_list decode_tab_state elems
        | _ => none
      let ui_state ← get_field fields "ui_state" >>= decode_ui_state
      let geometry ← get_option_field fields "geometry" decode_geometry
      pure { window_label, is_main_window, active_tab_id, tabs, ui_state, geometry }
  | _ => none

/-- Serialize a `WorkspaceState`. -/
def encode_workspace_state (w : WorkspaceState) : Json :=
  .obj [("root_path", encode_option Json.str w.root_path),
        ("is_workspace_mode", .bool w.is_workspace_mode),
        ("show_hidden_files", .bool w.show_hidden_files)]

/-- Deserialize a `WorkspaceState`. -/
def decode_workspace_state : Json → Option WorkspaceState
  | .obj fields => do
      let root_path ← get_option_field fields "root_path" decode_string
      let is_workspace_mode ← get_field fields "is_workspace_mode" >>= decode_bool
      let show_hidden_files ← get_field fields "show_hidden_files" >>= decode_bool
      pure { root_path, is_workspace_mode, show_hidden_files }
  | _ => none

/-- Serialize a `SessionData` (the document written by
`serde_json::to_string_pretty` in storage.rs line 44). -/
def encode_session_data (s : SessionData) : Json :=
  .obj [("version", .num (s.version : Int)),
        ("timestamp", .num s.timestamp),
        ("vmark_version", .str s.vmark_version),
        ("windows", .arr (s.windows.map encode_window_state)),
        ("workspace", encode_option encode_workspace_state s.workspace)]

/-- Deserialize a `SessionData` (the parse performed by
`serde_json::from_str` in storage.rs line 96). -/
def decode_session_data : Json → Option SessionData
  | .obj fields => do
      let version ← get_field fields "version" >>= decode_nat
      let timestamp ← get_field fields "timestamp" >>= decode_int
      let vmark_version ← get_field fields "vmark_version" >>= decode_string
      let windowsJson ← get_field fields "windows"
      let windows ← match windowsJson with
        | .arr elems => decode_list decode_window_state elems
        | _ => none
      let workspace ← get_option_field fields "workspace" decode_workspace_state
      pure { version, timestamp, vmark_version, windows, workspace }
  | _ => none

/-! ### Durable store (storage.rs) -/

/-- The relevant slice of the file system: the contents (as parsed JSON
documents) of `session.json`, the `session.prev.json` backup, and the
temporary file used by the tmp-plus-rename pattern.  `temp_content = none`
with `temp_exists = true` models a created but still empty temp file. -/
structure FS where
  session_file : Option Json
  backup_file : Option Json
  temp_exists : Bool
  temp_content : Option Json

/-- Success/failure oracle for the fallible steps of
`write_session_atomic`, in the order they occur in storage.rs lines 44-77. -/
structure IoOracle where
  serialize_ok : Bool
  create_temp_ok : Bool
  write_ok : Bool
  flush_ok : Bool
  sync_ok : Bool
  copy_ok : Bool
  persist_ok : Bool

/-- Model of `write_session_atomic` (storage.rs lines 36-80): serialize;
create a temp file in the session directory; write, flush and fsync it; if a
prior session file exists, copy it to the backup path (failure aborts the
whole write); finally atomically rename temp over the session path.  Every
error return leaves the session path untouched and drops (deletes) the temp
file, mirroring `NamedTempFile`'s drop behavior. -/
def write_session_atomic (fs : FS) (io1 : IoOracle) (session : SessionData) :
    Except String Unit × FS :=
  if io1.serialize_ok = false then (.error "JSON serialization failed", fs)
  else if io1.create_temp_ok = false then (.error "Failed to create temp file", fs)
  else
    let fs1 : FS := { fs with temp_exists := true, temp_content := none }
    if io1.write_ok = false then
      (.error "Failed to write temp file", { fs1 with temp_exists := false, temp_content := none })
    else
      let fs2 : FS := { fs1 with temp_content := some (encode_session_data session) }
      if io1.flush_ok = false then
        (.error "Failed to flush temp file", { fs2 with temp_exists := false, temp_content := none })
      else if io1.sync_ok = false then
        (.error "Failed to sync temp file", { fs2 with temp_exists := false, temp_content := none })
      else if fs2.session_file.isSome ∧ io1.copy_ok = false then
        (.error "Failed to backup session", { fs2 with temp_exists := false, temp_content := none })
      else
        let fs3 : FS :=
          if fs2.session_file.isSome then { fs2 with backup_file := fs2.session_file } else fs2
        if io1.persist_ok = false then
          (.error "Failed to persist session", { fs3 with temp_exists := false, temp_content := none })
        else
          (.ok (), { fs3 with session_file := some (encode_session_data session),
                              temp_exists := false, temp_content := none })

/-- Model of `read_session` (storage.rs lines 83-100): `none` when no file
exists, a parse error when the file fails to deserialize, otherwise the
session. -/
def read_session (fs : FS) : Except String (Option SessionData) :=
  match fs.session_file with
  | none => .ok none
  | some j =>
    match decode_session_data j with
    | some s => .ok (some s)
    | none => .error "Failed to parse session JSON"

/-! ### Claim C4: atomicity of the durable write -/

/-- C4: `write_session_atomic` fails exactly when one of its fallible steps
fails (serialization, temp-file creation/write/flush/sync, the backup copy
when a prior session exists — which aborts the whole write — or the final
rename); on every failure the session path is unchanged, and on success the
session path holds exactly the full serialization of the written session, so
the only step that changes the visible file is the final rename and no
partial file is ever visible. -/
theorem write_session_atomic_atomic (fs : FS) (io1 : IoOracle) (s : SessionData) :
    ((write_session_atomic fs io1 s).1.isOk = false ↔
      (io1.serialize_ok = false ∨ io1.create_temp_ok = false ∨ io1.write_ok = false ∨
        io1.flush_ok = false ∨ io1.sync_ok = false ∨
        (fs.session_file.isSome = true ∧ io1.copy_ok = false) ∨
        io1.persist_ok = false)) ∧
    ((write_session_atomic fs io1 s).1.isOk = false →
      (write_session_atomic fs io1 s).2.session_file = fs.session_file) ∧
    ((write_session_atomic fs io1 s).1.isOk = true →
      (write_session_atomic fs io1 s).2.session_file = some (encode_session_data s)) := by
  obtain ⟨b1, b2, b3, b4, b5, b6, b7⟩ := io1
  obtain ⟨sf, bf, te, tc⟩ := fs
  cases b1 <;> cases b2 <;> cases b3 <;> cases b4 <;> cases b5 <;> cases b6 <;> cases b7 <;>
    cases sf <;> simp [write_session_atomic, Except.isOk, Except.toBool]

/-- Witness for C4 at a concrete input: with a prior session present and the
backup copy failing, the write errors and the session path still holds the
prior document. -/
theorem write_session_atomic_atomic_witness :
    ((write_session_atomic ⟨some Json.null, none, false, none⟩
        ⟨true, true, true, true, true, false, true⟩ sampleCurrentSession).1.isOk = false ∧
      (write_session_atomic ⟨some Json.null, none, false, none⟩
        ⟨true, true, true, true, true, false, true⟩ sampleCurrentSession).2.session_file =
        some Json.null) := by
  have h := write_session_atomic_atomic ⟨some Json.null, none, false, none⟩
    ⟨true, true, true, true, true, false, true⟩ sampleCurrentSession
  have hfail : (write_session_atomic ⟨some Json.null, none, false, none⟩
      ⟨true, true, true, true, true, false, true⟩ sampleCurrentSession).1.isOk = false :=
    h.1.mpr (Or.inr (Or.inr (Or.inr (Or.inr (Or.inr (Or.inl ⟨rfl, rfl⟩))))))
  exact ⟨hfail, h.2.1 hfail⟩

/-! ### Round-trip lemmas for the serialization model -/

/-- Decoding an encoded unsigned integer recovers it. -/
theorem decode_nat_encode (n : Nat) : decode_nat (Json.num (n : Int)) = some n := by
  show (if (n : Int) < 0 then none else some ((n : Int)).toNat) = some n
  rw [if_neg (by omega)]
  simp

/-- Decoding an encoded optional value recovers it, provided the element
encoder round-trips and never produces `null`. -/
theorem decode_option_encode {α} (f : Json → Option α) (g : α → Json) (o : Option α)
    (h : ∀ a, f (g a) = some a) (hnn : ∀ a, g a ≠ Json.null) :
    decode_option f (encode_option g o) = some o := by
  cases o with
  | none => rfl
  | some a =>
    show decode_option f (g a) = some (some a)
    have hf := h a
    cases hg : g a with
    | null => exact absurd hg (hnn a)
    | bool b => rw [hg] at hf; simp [decode_option, hf]
    | num n => rw [hg] at hf; simp [decode_option, hf]
    | str s => rw [hg] at hf; simp [decode_option, hf]
    | arr elems => rw [hg] at hf; simp [decode_option, hf]
    | obj fields => rw [hg] at hf; simp [decode_option, hf]

/-- Decoding an encoded list elementwise recovers it. -/
theorem decode_list_encode {α} (dec : Json → Option α) (enc : α → Json) (xs : List α)
    (h : ∀ x ∈ xs, dec (enc x) = some x) :
    decode_list dec (xs.map enc) = some xs := by
  induction xs with
  | nil => rfl
  | cons a as ih =>
    have ha := h a (List.mem_cons_self a as)
    have hrest := ih (fun x hx => h x (List.mem_cons_of_mem a hx))
    simp [decode_list, ha, hrest]

/-- Geometry round-trips. -/
theorem decode_encode_geometry (g : WindowGeometry) :
    decode_geometry (encode_geometry g) = some g := by
  obtain ⟨x, y, w, h⟩ := g
  simp [decode_geometry, encode_geometry, get_field, decode_int, decode_nat_encode]

/-- UI state round-trips. -/
theorem decode_encode_ui_state (u : UiState) :
    decode_ui_state (encode_ui_state u) = some u := by
  obtain ⟨a, b, c, d, e, f, g, h⟩ := u
  simp [decode_ui_state, encode_ui_state, get_field, decode_bool, decode_string,
    decode_nat_encode]

/-- Well-formedness of a cursor's block anchor for serialization purposes:
`Some(Value::Null)` serializes identically to `None`, so it is the one value
that cannot survive a round trip. -/
def block_anchor_wf : Option Json → Bool
  | some Json.null => false
  | _ => true

/-- Serialization well-formedness of a cursor: its block anchor is not
`Some(Value::Null)` and its `percent_in_line` is a finite float (serde_json
writes a non-finite float as `null`, which then fails to parse back as
`f32`). -/
def cursor_wf (c : CursorInfo) : Bool :=
  block_anchor_wf c.block_anchor &&
    (match c.percent_in_line with
     | .finite _ => true
     | .nonfinite => false)

/-- Cursor info round-trips when well-formed. -/
theorem decode_encode_cursor_info (c : CursorInfo) (h : cursor_wf c = true) :
    decode_cursor_info (encode_cursor_info c) = some c := by
  obtain ⟨sl, wac, oiw, nt, pil, cb, ca, ba⟩ := c
  simp only [cursor_wf, Bool.and_eq_true] at h
  obtain ⟨hba0, hpf0⟩ := h
  have hba : decode_option decode_json (encode_option (fun j => j) ba) = some ba := by
    cases ba with
    | none => rfl
    | some j =>
      cases j with
      | null => simp [block_anchor_wf] at hba0
      | bool b => rfl
      | num n => rfl
      | str s => rfl
      | arr elems => rfl
      | obj fields => rfl
  have hpf : decode_f32 (encode_f32 pil) = some pil := by
    cases pil with
    | finite v => rfl
    | nonfinite => exact Bool.noConfusion hpf0
  simp [decode_cursor_info, encode_cursor_info, get_field, get_option_field,
    decode_string, decode_nat_encode, hba, hpf]

/-- Serialization well-formedness of a document: its cursor info (if any)
must be well-formed. -/
def document_wf (d : DocumentState) : Bool :=
  match d.cursor_info with
  | none => true
  | some c => cursor_wf c

/-- Document state round-trips when well-formed. -/
theorem decode_encode_document_state (d : DocumentState) (h : document_wf d = true) :
    decode_document_state (encode_document_state d) = some d := by
  obtain ⟨c1, c2, b1, b2, b3, le, ci, lm, b4, un⟩ := d
  simp only [document_wf] at h
  have hci : decode_option decode_cursor_info (encode_option encode_cursor_info ci) =
      some ci := by
    cases ci with
    | none => rfl
    | some c =>
      have hc := decode_encode_cursor_info c h
      have hobj : decode_option decode_cursor_info (encode_option encode_cursor_info (some c)) =
          (decode_cursor_info (encode_cursor_info c)).map some := rfl
      rw [hobj, hc]
      rfl
  have hlm : decode_option decode_int (encode_option (fun n : Int => Json.num n) lm) =
      some lm := by
    cases lm with
    | none => rfl
    | some n => rfl
  have hun : decode_option decode_nat (encode_option (fun n : Nat => Json.num (n : Int)) un) =
      some un := by
    cases un with
    | none => rfl
    | some n =>
      have hobj : decode_option decode_nat
          (encode_option (fun n : Nat => Json.num (n : Int)) (some n)) =
          (decode_nat (Json.num (n : Int))).map some := rfl
      rw [hobj, decode_nat_encode]
      rfl
  simp [decode_document_state, encode_document_state, get_field, get_option_field,
    decode_string, decode_bool, hci, hlm, hun]

/-- Serialization well-formedness of a tab. -/
def tab_wf (t : TabState) : Bool := document_wf t.document

/-- Tab state round-trips when well-formed. -/
theorem decode_encode_tab_state (t : TabState) (h : tab_wf t = true) :
    decode_tab_state (encode_tab_state t) = some t := by
  obtain ⟨tid, fp, ti, ip, doc⟩ := t
  simp only [tab_wf] at h
  have hdoc := decode_encode_document_state doc h
  have hfp : decode_option decode_string (encode_option Json.str fp) = some fp := by
    cases fp with
    | none => rfl
    | some s => rfl
  simp [decode_tab_state, encode_tab_state, get_field, get_option_field,
    decode_string, decode_bool, hdoc, hfp]

/-- Serialization well-formedness of a window: all its tabs are well-formed. -/
def window_wf (w : WindowState) : Bool := w.tabs.all tab_wf

/-- Window state round-trips when well-formed. -/
theorem decode_encode_window_state (w : WindowState) (h : window_wf w = true) :
    decode_window_state (encode_window_state w) = some w := by
  obtain ⟨lab, im, atid, tabs, ui, geo⟩ := w
  simp only [window_wf, List.all_eq_true] at h
  have htabs : decode_list decode_tab_state (tabs.map encode_tab_state) = some tabs :=
    decode_list_encode _ _ _ (fun t ht => decode_encode_tab_state t (h t ht))
  have hatid : decode_option decode_string (encode_option Json.str atid) = some atid := by
    cases atid with
    | none => rfl
    | some s => rfl
  have hgeo : decode_option decode_geometry (encode_option encode_geometry geo) = some geo := by
    cases geo with
    | none => rfl
    | some g =>
      have hobj : decode_option decode_geometry (encode_option encode_geometry (some g)) =
          (decode_geometry (encode_geometry g)).map some := rfl
      rw [hobj, decode_encode_geometry]
      rfl
  have hui := decode_encode_ui_state ui
  simp [decode_window_state, encode_window_state, get_field, get_option_field,
    decode_string, decode_bool, htabs, hatid, hgeo, hui]

/-- Workspace state round-trips. -/
theorem decode_encode_workspace_state (w : WorkspaceState) :
    decode_workspace_state (encode_workspace_state w) = some w := by
  obtain ⟨rp, im, sh⟩ := w
  have hrp : decode_option decode_string (encode_option Json.str rp) = some rp := by
    cases rp with
    | none => rfl
    | some s => rfl
  simp [decode_workspace_state, encode_workspace_state, get_field, get_option_field,
    decode_bool, hrp]

/-- Serialization well-formedness of a session: all windows are well-formed,
i.e. no `block_anchor` holds `Some(Value::Null)` and every
`percent_in_line` is a finite float. -/
def session_wf (s : SessionData) : Bool := s.windows.all window_wf

/-- A well-formed session round-trips through the serialization model. -/
theorem decode_encode_session_data (s : SessionData) (h : session_wf s = true) :
    decode_session_data (encode_session_data s) = some s := by
  obtain ⟨v, ts, vv, ws, wsp⟩ := s
  simp only [session_wf, List.all_eq_true] at h
  have hws : decode_list decode_window_state (ws.map encode_window_state) = some ws :=
    decode_list_encode _ _ _ (fun w hw => decode_encode_window_state w (h w hw))
  have hwsp : decode_option decode_workspace_state
      (encode_option encode_workspace_state wsp) = some wsp := by
    cases wsp with
    | none => rfl
    | some x =>
      have hobj : decode_option decode_workspace_state
          (encode_option encode_workspace_state (some x)) =
          (decode_workspace_state (encode_workspace_state x)).map some := rfl
      rw [hobj, decode_encode_workspace_state]
      rfl
  simp [decode_session_data, encode_session_data, get_field, get_option_field,
    decode_int, decode_string, decode_nat_encode, hws, hwsp]

/-! ### Claim C5: durable-store round-trip -/

/-- Helper: whenever `write_session_atomic` succeeds, the session path holds
exactly the serialization of the written session. -/
theorem write_session_atomic_ok_file (fs : FS) (io1 : IoOracle) (s : SessionData)
    (h : (write_session_atomic fs io1 s).1.isOk = true) :
    (write_session_atomic fs io1 s).2.session_file = some (encode_session_data s) := by
  obtain ⟨b1, b2, b3, b4, b5, b6, b7⟩ := io1
  obtain ⟨sf, bf, te, tc⟩ := fs
  cases b1 <;> cases b2 <;> cases b3 <;> cases b4 <;> cases b5 <;> cases b6 <;> cases b7 <;>
    cases sf <;> simp_all [write_session_atomic, Except.isOk, Except.toBool]

/-- C5 (amended): the round trip through the durable store is lossless for
every session in which no cursor `block_anchor` is `Some(Value::Null)` and
every cursor `percent_in_line` is a finite `f32`: if `write_session_atomic`
succeeds, `read_session` returns exactly the written session, field for
field.  Both well-formedness conditions are forced by serde_json: under the
`Option<T>` encoding `Some(Value::Null)` and `None` both serialize as `null`
and deserialize as `None`, and a non-finite float serializes as `null`,
which then fails to parse back as an `f32`. -/
theorem write_read_roundtrip (fs : FS) (io1 : IoOracle) (s : SessionData)
    (hwf : session_wf s = true)
    (hok : (write_session_atomic fs io1 s).1.isOk = true) :
    read_session (write_session_atomic fs io1 s).2 = .ok (some s) := by
  have hfile := write_session_atomic_ok_file fs io1 s hok
  unfold read_session
  simp only [hfile]
  rw [decode_encode_session_data s hwf]

/-- The all-success I/O oracle. -/
def all_ok_oracle : IoOracle := ⟨true, true, true, true, true, true, true⟩

/-- An initially empty file system. -/
def empty_fs : FS := ⟨none, none, false, none⟩

/-- Witness for C5 at a concrete input: writing the sample session to an
empty file system succeeds and reading it back returns exactly it. -/
theorem write_read_roundtrip_witness :
    session_wf sampleCurrentSession = true ∧
      (write_session_atomic empty_fs all_ok_oracle sampleCurrentSession).1.isOk = true ∧
      read_session (write_session_atomic empty_fs all_ok_oracle sampleCurrentSession).2 =
        .ok (some sampleCurrentSession) :=
  ⟨rfl, rfl, write_read_roundtrip empty_fs all_ok_oracle sampleCurrentSession rfl rfl⟩

/-- A sample UI state for concrete sessions. -/
def sample_ui_state : UiState :=
  ⟨true, 250, false, "files", true, false, false, false⟩

/-- A cursor info whose `block_anchor` is `Some(Value::Null)`, the one shape
that cannot survive serde's `Option<Value>` round trip. -/
def sample_cursor_null_anchor : CursorInfo :=
  ⟨0, "w", 0, "paragraph", F32.finite 0, "", "", some Json.null⟩

/-- A document carrying `sample_cursor_null_anchor`. -/
def sample_document_null_anchor : DocumentState :=
  ⟨"x", "x", false, false, false, "lf", some sample_cursor_null_anchor, none, false, none⟩

/-- A tab carrying `sample_document_null_anchor`. -/
def sample_tab_null_anchor : TabState :=
  ⟨"tab-1", none, "untitled", false, sample_document_null_anchor⟩

/-- A window carrying `sample_tab_null_anchor`. -/
def sample_window_null_anchor : WindowState :=
  ⟨"main", true, some "tab-1", [sample_tab_null_anchor], sample_ui_state, none⟩

/-- A session carrying `sample_window_null_anchor`: a valid `SessionData`
value on which the write/read round trip is lossy. -/
def sample_session_null_anchor : SessionData :=
  ⟨SCHEMA_VERSION, 0, "0.3.18", [sample_window_null_anchor], none⟩

/-- What `sample_session_null_anchor` becomes after the round trip: the
`block_anchor` collapses to `None`; every other field survives. -/
def sample_session_null_anchor_decoded : SessionData :=
  ⟨SCHEMA_VERSION, 0, "0.3.18",
    [⟨"main", true, some "tab-1",
      [⟨"tab-1", none, "untitled", false,
        ⟨"x", "x", false, false, false, "lf",
          some ⟨0, "w", 0, "paragraph", F32.finite 0, "", "", none⟩, none, false, none⟩⟩],
      sample_ui_state, none⟩], none⟩

/-- A cursor whose `percent_in_line` is a non-finite `f32` (NaN or an
infinity): serde_json serializes it as `null`, which cannot be parsed back
as an `f32`. -/
def sample_cursor_nan : CursorInfo :=
  ⟨0, "w", 0, "paragraph", F32.nonfinite, "", "", none⟩

/-- A document carrying `sample_cursor_nan`. -/
def sample_document_nan : DocumentState :=
  ⟨"x", "x", false, false, false, "lf", some sample_cursor_nan, none, false, none⟩

/-- A tab carrying `sample_document_nan`. -/
def sample_tab_nan : TabState :=
  ⟨"tab-1", none, "untitled", false, sample_document_nan⟩

/-- A window carrying `sample_tab_nan`. -/
def sample_window_nan : WindowState :=
  ⟨"main", true, some "tab-1", [sample_tab_nan], sample_ui_state, none⟩

/-- A session carrying `sample_window_nan`: a second valid `SessionData`
value on which the write/read round trip fails. -/
def sample_session_nan : SessionData :=
  ⟨SCHEMA_VERSION, 0, "0.3.18", [sample_window_nan], none⟩

/-- Counterexample for C5 as stated, at two type-valid inputs.  For
`sample_session_null_anchor` (a `block_anchor` of `Some(Value::Null)`),
the write succeeds but the read returns a session whose anchor collapsed to
`None`.  For `sample_session_nan` (a non-finite `percent_in_line: f32`,
serialized by serde_json as `null`), the write succeeds but the read fails
to parse the file at all.  In neither case does `read_session` return the
session that was written. -/
theorem write_read_roundtrip_counterexample :
    ((write_session_atomic empty_fs all_ok_oracle sample_session_null_anchor).1.isOk = true ∧
      read_session (write_session_atomic empty_fs all_ok_oracle sample_session_null_anchor).2 ≠
        .ok (some sample_session_null_anchor)) ∧
    ((write_session_atomic empty_fs all_ok_oracle sample_session_nan).1.isOk = true ∧
      read_session (write_session_atomic empty_fs all_ok_oracle sample_session_nan).2 ≠
        .ok (some sample_session_nan)) := by
  refine ⟨⟨rfl, fun h => ?_⟩, ⟨rfl, fun h => ?_⟩⟩
  · have hred : read_session
        (write_session_atomic empty_fs all_ok_oracle sample_session_null_anchor).2 =
        .ok (some sample_session_null_anchor_decoded) := rfl
    rw [hred] at h
    have h1 : (some sample_session_null_anchor_decoded : Option SessionData) =
        some sample_session_null_anchor := by
      injection h
    have h2 : sample_session_null_anchor_decoded = sample_session_null_anchor := by
      injection h1
    exact absurd (congrArg session_wf h2) (by decide)
  · have hred : read_session
        (write_session_atomic empty_fs all_ok_oracle sample_session_nan).2 =
        .error "Failed to parse session JSON" := rfl
    rw [hred] at h
    exact Except.noConfusion h

/-! ### Lexicographic string order (model of `str::cmp` in Rust)

Rust compares `String`s bytewise over UTF-8, which coincides with
lexicographic order on unicode scalar values.  Lean's built-in `String`
order is defined by well-founded recursion and does not reduce in the
kernel, so the order is defined here structurally over the character
lists. -/

/-- Lexicographic less-or-equal on character lists, comparing scalar
values. -/
def str_le_chars : List Char → List Char → Bool
  | [], _ => true
  | _ :: _, [] => false
  | a :: as, b :: bs =>
    if a.val.toNat < b.val.toNat then true
    else if b.val.toNat < a.val.toNat then false
    else str_le_chars as bs

/-- Lexicographic less-or-equal on strings (model of `str::cmp` being
`Less` or `Equal`). -/
def str_le (a b : String) : Bool := str_le_chars a.data b.data

/-- The character-list order is total. -/
theorem str_le_chars_total (xs ys : List Char) :
    str_le_chars xs ys = true ∨ str_le_chars ys xs = true := by
  induction xs generalizing ys with
  | nil => exact Or.inl rfl
  | cons a as ih =>
    cases ys with
    | nil => exact Or.inr rfl
    | cons b bs =>
      by_cases h1 : a.val.toNat < b.val.toNat
      · exact Or.inl (by simp [str_le_chars, h1])
      · by_cases h2 : b.val.toNat < a.val.toNat
        · exact Or.inr (by simp [str_le_chars, h2])
        · rcases ih bs with h | h
          · exact Or.inl (by simp [str_le_chars, h1, h2, h])
          · exact Or.inr (by simp [str_le_chars, h1, h2, h])

/-- Inversion for the character-list order on cons cells. -/
theorem str_le_chars_cons_true {a b : Char} {as bs : List Char}
    (h : str_le_chars (a :: as) (b :: bs) = true) :
    a.val.toNat < b.val.toNat ∨ (a.val.toNat = b.val.toNat ∧ str_le_chars as bs = true) := by
  by_cases h1 : a.val.toNat < b.val.toNat
  · exact Or.inl h1
  · by_cases h2 : b.val.toNat < a.val.toNat
    · rw [show str_le_chars (a :: as) (b :: bs) = false from by simp [str_le_chars, h1, h2]] at h
      exact absurd h (by simp)
    · refine Or.inr ⟨by omega, ?_⟩
      simpa [str_le_chars, h1, h2] using h

/-- The character-list order is transitive. -/
theorem str_le_chars_trans (xs ys zs : List Char) (h1 : str_le_chars xs ys = true)
    (h2 : str_le_chars ys zs = true) : str_le_chars xs zs = true := by
  induction xs generalizing ys zs with
  | nil => rfl
  | cons a as ih =>
    cases ys with
    | nil => exact absurd h1 (by simp [str_le_chars])
    | cons b bs =>
      cases zs with
      | nil => exact absurd h2 (by simp [str_le_chars])
      | cons c cs =>
        rcases str_le_chars_cons_true h1 with hab | ⟨hab, hrec1⟩ <;>
          rcases str_le_chars_cons_true h2 with hbc | ⟨hbc, hrec2⟩
        · simp [str_le_chars, show a.val.toNat < c.val.toNat by omega]
        · simp [str_le_chars, show a.val.toNat < c.val.toNat by omega]
        · simp [str_le_chars, show a.val.toNat < c.val.toNat by omega]
        · have hac : a.val.toNat = c.val.toNat := by omega
          simp only [str_le_chars, if_neg (by omega : ¬a.val.toNat < c.val.toNat),
            if_neg (by omega : ¬c.val.toNat < a.val.toNat)]
          exact ih bs cs hrec1 hrec2

/-- The string order is total. -/
theorem str_le_total (a b : String) : str_le a b = true ∨ str_le b a = true :=
  str_le_chars_total a.data b.data

/-- The string order is transitive. -/
theorem str_le_trans (a b c : String) (h1 : str_le a b = true) (h2 : str_le b c = true) :
    str_le a c = true :=
  str_le_chars_trans a.data b.data c.data h1 h2

/-! ### Capture coordinator (coordinator.rs) -/

/-- Modelled from the spec: the canonical main-window label.  The constant
`MAIN_WINDOW_LABEL` is imported by coordinator.rs from its parent module,
whose definition of it is not part of the provided sources; the
specification's example scenario uses the label `main` for the main window
and `doc-`-preceded labels for document windows. -/
def MAIN_WINDOW_LABEL : String := "main"

/-- Capture timeout in seconds (coordinator.rs line 19). -/
def CAPTURE_TIMEOUT_SECS : Nat := 5

/-- Polling interval for waiting on responses (coordinator.rs line 16). -/
def RESPONSE_POLL_INTERVAL_MS : Nat := 100

/-- Capture response from a window (coordinator.rs lines 80-85). -/
structure CaptureResponse where
  capture_id : String
  window_label : String
  state : WindowState

/-- Coordinator state for collecting window responses (coordinator.rs lines
88-92).  The hash map of responses is modelled as an association list in
arrival order; the expected set as a list of labels. -/
structure CaptureState where
  capture_id : String
  expected_windows : List String
  responses : List (String × WindowState)

/-- Model of `normalize_window_label` (coordinator.rs lines 95-104): force
the state's self-reported label to the expected label when they differ. -/
def normalize_window_label (state : WindowState) (expected_label : String) : WindowState :=
  if state.window_label ≠ expected_label then { state with window_label := expected_label }
  else state

/-- Association-list lookup, modelling `HashMap::get`/`contains_key`. -/
def lookup_response : List (String × WindowState) → String → Option WindowState
  | [], _ => none
  | (k, v) :: rest, key => if k = key then some v else lookup_response rest key

/-- Model of the capture-response listener body (coordinator.rs lines
138-187): drop the response when its correlation id differs from the
round's, when its sender is not among the expected windows, or when that
window already answered; otherwise normalize the state's label to the
response's label and record it under that label. -/
def handle_capture_response (st : CaptureState) (response : CaptureResponse) : CaptureState :=
  if response.capture_id ≠ st.capture_id then st
  else if response.window_label ∉ st.expected_windows then st
  else if (lookup_response st.responses response.window_label).isSome then st
  else
    { st with responses := st.responses ++
        [(response.window_label, normalize_window_label response.state response.window_label)] }

/-- The capture round's listener applied to a sequence of delivered
capture-response messages (messages whose payload fails to parse are ignored
by the listener and so simply do not appear in the sequence). -/
def run_capture_round (capture_id : String) (expected : List String)
    (messages : List CaptureResponse) : CaptureState :=
  messages.foldl handle_capture_response ⟨capture_id, expected, []⟩

/-- Structural model of `str::starts_with` over character lists (Lean's
built-in version is defined by non-structural recursion and does not reduce
in the kernel). -/
def starts_with_chars : List Char → List Char → Bool
  | _, [] => true
  | [], _ :: _ => false
  | a :: as, b :: bs => a == b && starts_with_chars as bs

/-- Whether `s` starts with the pattern `pattern`. -/
def str_starts_with (s pattern : String) : Bool :=
  starts_with_chars s.data pattern.data

/-- The document-window filter of `capture_session` (coordinator.rs lines
109-119): keep the main window and `doc-`-preceded labels. -/
def document_windows (all_labels : List String) : List String :=
  all_labels.filter (fun l => l == MAIN_WINDOW_LABEL || str_starts_with l "doc-")

/-- The window comparator of `capture_session` (coordinator.rs lines
231-238) as a less-or-equal: a main window sorts before a non-main window,
and windows with equal main-flags sort by label. -/
def window_sort_le (a b : WindowState) : Bool :=
  match a.is_main_window, b.is_main_window with
  | true, false => true
  | false, true => false
  | _, _ => str_le a.window_label b.window_label

/-- The comparator as a decidable relation. -/
def window_le (a b : WindowState) : Prop := window_sort_le a b = true

instance : DecidableRel window_le := fun _ _ => inferInstanceAs (Decidable (_ = true))

/-- The comparator is total. -/
theorem window_sort_le_total (a b : WindowState) :
    window_sort_le a b = true ∨ window_sort_le b a = true := by
  unfold window_sort_le
  cases a.is_main_window <;> cases b.is_main_window
  · exact str_le_total a.window_label b.window_label
  · exact Or.inr rfl
  · exact Or.inl rfl
  · exact str_le_total a.window_label b.window_label

/-- The comparator is transitive. -/
theorem window_sort_le_trans (a b c : WindowState) (h1 : window_sort_le a b = true)
    (h2 : window_sort_le b c = true) : window_sort_le a c = true := by
  unfold window_sort_le at h1 h2 ⊢
  revert h1 h2
  cases a.is_main_window <;> cases b.is_main_window <;> cases c.is_main_window <;>
    intro h1 h2
  · exact str_le_trans _ _ _ h1 h2
  · exact Bool.noConfusion h2
  · exact Bool.noConfusion h1
  · exact Bool.noConfusion h1
  · rfl
  · exact Bool.noConfusion h2
  · rfl
  · exact str_le_trans _ _ _ h1 h2

instance : IsTotal WindowState window_le := ⟨window_sort_le_total⟩

instance : IsTrans WindowState window_le := ⟨window_sort_le_trans⟩

/-- Model of the deterministic sort of `capture_session` (coordinator.rs
lines 230-238).  Rust's `sort_by` is a stable sort; a stable insertion sort
computes the same output as any stable sort for a total transitive
comparator, so it models `sort_by` exactly. -/
def sort_windows (ws : List WindowState) : List WindowState :=
  ws.insertionSort window_le

/-- Model of `capture_session` (coordinator.rs lines 107-249).  The ambient
interactions are passed explicitly: the open window labels, the generated
correlation id, whether the broadcast emit succeeded, whether the 5-second
timeout elapsed, the sequence of capture-response messages delivered to the
listener during the round, the clock, and the crate version. -/
def capture_session (all_labels : List String) (capture_id : String) (emit_ok : Bool)
    (timed_out : Bool) (messages : List CaptureResponse) (now : Int)
    (vmark_version : String) : Except String SessionData :=
  if (document_windows all_labels).isEmpty then .error "No document windows to capture"
  else if emit_ok = false then .error "Failed to emit capture request"
  else if timed_out && (run_capture_round capture_id (document_windows all_labels)
      messages).responses.isEmpty then
    .error "Capture timeout: no windows responded"
  else
    .ok { version := SCHEMA_VERSION, timestamp := now, vmark_version := vmark_version,
          windows := sort_windows ((run_capture_round capture_id (document_windows all_labels)
            messages).responses.map Prod.snd),
          workspace := none }

/-! ### Claim C2: capture-response validation -/

/-- Normalizing a state to a label just sets the label. -/
theorem normalize_window_label_eq (s : WindowState) (l : String) :
    normalize_window_label s l = { s with window_label := l } := by
  unfold normalize_window_label
  by_cases h : s.window_label ≠ l
  · rw [if_pos h]
  · rw [if_neg h]
    have hl : s.window_label = l := not_not.mp h
    obtain ⟨sl, b, c, d, e, f⟩ := s
    simp only at hl
    rw [hl]

/-- C2: a capture-response message is recorded in the round's response map
iff its correlation id equals the round's id, its sender label is in the
originally-enumerated expected set (which the listener never mutates), and
that label has not answered yet; in that case it is appended under its label
with the state's `window_label` normalized to that expected key, and in
every other case the round state is left untouched (the message is silently
dropped). -/
theorem capture_response_validation (st : CaptureState) (r : CaptureResponse) :
    (r.capture_id = st.capture_id ∧ r.window_label ∈ st.expected_windows ∧
        lookup_response st.responses r.window_label = none →
      handle_capture_response st r =
        { st with responses := st.responses ++
            [(r.window_label, { r.state with window_label := r.window_label })] }) ∧
    (¬(r.capture_id = st.capture_id ∧ r.window_label ∈ st.expected_windows ∧
        lookup_response st.responses r.window_label = none) →
      handle_capture_response st r = st) := by
  constructor
  · rintro ⟨h1, h2, h3⟩
    unfold handle_capture_response
    rw [if_neg (not_not_intro h1), if_neg (not_not_intro h2), if_neg (by simp [h3]),
      normalize_window_label_eq]
  · intro hn
    unfold handle_capture_response
    by_cases h1 : r.capture_id ≠ st.capture_id
    · rw [if_pos h1]
    · rw [if_neg h1]
      by_cases h2 : r.window_label ∉ st.expected_windows
      · rw [if_pos h2]
      · rw [if_neg h2]
        have h3 : ¬lookup_response st.responses r.window_label = none := fun h3 =>
          hn ⟨not_not.mp h1, not_not.mp h2, h3⟩
        have h4 : (lookup_response st.responses r.window_label).isSome = true := by
          cases hl : lookup_response st.responses r.window_label
          · exact absurd hl h3
          · rfl
        rw [if_pos h4]

/-- A window state whose self-reported label differs from its sender label,
used to exercise normalization. -/
def sample_window_mislabelled : WindowState :=
  ⟨"stale-label", true, none, [], sample_ui_state, none⟩

/-- A fresh capture round expecting `main` and `doc-0`. -/
def sample_capture_state : CaptureState := ⟨"capture-1", ["main", "doc-0"], []⟩

/-- A response from `main` in round `capture-1`. -/
def sample_capture_response : CaptureResponse := ⟨"capture-1", "main", sample_window_mislabelled⟩

/-- Witness for C2 at a concrete input: a matching, expected, first response
is recorded under its label with the state's label normalized. -/
theorem capture_response_validation_witness :
    (sample_capture_response.capture_id = sample_capture_state.capture_id ∧
      sample_capture_response.window_label ∈ sample_capture_state.expected_windows ∧
      lookup_response sample_capture_state.responses sample_capture_response.window_label =
        none) ∧
    handle_capture_response sample_capture_state sample_capture_response =
      { sample_capture_state with responses :=
          [("main", { sample_window_mislabelled with window_label := "main" })] } := by
  have hcond : sample_capture_response.capture_id = sample_capture_state.capture_id ∧
      sample_capture_response.window_label ∈ sample_capture_state.expected_windows ∧
      lookup_response sample_capture_state.responses sample_capture_response.window_label =
        none :=
    ⟨rfl, by simp [sample_capture_state, sample_capture_response], rfl⟩
  exact ⟨hcond, (capture_response_validation sample_capture_state sample_capture_response).1 hcond⟩

/-! ### Claim C3: capture failure conditions -/

/-- C3: `capture_session` fails iff there are no document windows at the
start, the broadcast emit fails, or the timeout elapses with an empty
response map; and every successful capture returns a session whose windows
are exactly (a permutation of) the collected responses, so a timeout with
`k > 0` responses still succeeds with exactly those `k` states. -/
theorem capture_failure_conditions (all_labels : List String) (capture_id : String)
    (emit_ok timed_out : Bool) (messages : List CaptureResponse) (now : Int) (vv : String) :
    ((capture_session all_labels capture_id emit_ok timed_out messages now vv).isOk = false ↔
      ((document_windows all_labels).isEmpty = true ∨ emit_ok = false ∨
        (timed_out = true ∧
          (run_capture_round capture_id (document_windows all_labels) messages).responses =
            []))) ∧
    (∀ s, capture_session all_labels capture_id emit_ok timed_out messages now vv = .ok s →
      s.windows.Perm
        ((run_capture_round capture_id (document_windows all_labels) messages).responses.map
          Prod.snd)) := by
  constructor
  · by_cases h1 : (document_windows all_labels).isEmpty = true
    · simp [capture_session, h1, Except.isOk, Except.toBool]
    · by_cases h2 : emit_ok = false
      · simp [capture_session, h1, h2, Except.isOk, Except.toBool]
      · by_cases h4 : (run_capture_round capture_id (document_windows all_labels)
            messages).responses = []
        · cases h3 : timed_out <;>
            simp [capture_session, h1, h2, h3, h4, Except.isOk, Except.toBool,
              List.isEmpty_iff]
        · cases h3 : timed_out <;>
            simp [capture_session, h1, h2, h3, h4, Except.isOk, Except.toBool,
              List.isEmpty_iff]
  · intro s hs
    unfold capture_session at hs
    split_ifs at hs
    injection hs with hs
    rw [← hs]
    exact List.perm_insertionSort window_le _

/-- The main window's state in the concrete capture scenario. -/
def sample_window_main : WindowState := ⟨"main", true, none, [], sample_ui_state, none⟩

/-- A response from `main` in round `c1`. -/
def sample_response_main : CaptureResponse := ⟨"c1", "main", sample_window_main⟩

/-- Witness for C3 at a concrete input: two expected windows, the timeout
elapses with only `main` having responded, and capture still succeeds with
exactly that one window state. -/
theorem capture_failure_conditions_witness :
    capture_session ["main", "doc-0"] "c1" true true [sample_response_main] 0 "0.3.18" =
      .ok ⟨SCHEMA_VERSION, 0, "0.3.18", [sample_window_main], none⟩ ∧
    (([sample_window_main] : List WindowState)).Perm
      ((run_capture_round "c1" (document_windows ["main", "doc-0"])
        [sample_response_main]).responses.map Prod.snd) := by
  refine ⟨rfl, ?_⟩
  have h := (capture_failure_conditions ["main", "doc-0"] "c1" true true
    [sample_response_main] 0 "0.3.18").2 ⟨SCHEMA_VERSION, 0, "0.3.18",
      [sample_window_main], none⟩ rfl
  simpa using h

/-! ### Claim C8: deterministic window order on capture success -/

/-- C8: every session assembled by a successful capture has its windows
sorted deterministically: main-flagged entries precede non-main entries, and
entries with equal main-flags are in ascending label order. -/
theorem capture_windows_sorted (all_labels : List String) (capture_id : String)
    (emit_ok timed_out : Bool) (messages : List CaptureResponse) (now : Int) (vv : String) :
    ∀ s, capture_session all_labels capture_id emit_ok timed_out messages now vv = .ok s →
      s.windows.Pairwise (fun a b =>
        (b.is_main_window = true → a.is_main_window = true) ∧
        (a.is_main_window = b.is_main_window →
          str_le a.window_label b.window_label = true)) := by
  intro s hs
  unfold capture_session at hs
  split_ifs at hs
  injection hs with hs
  rw [← hs]
  have hsorted : (sort_windows ((run_capture_round capture_id (document_windows all_labels)
      messages).responses.map Prod.snd)).Pairwise window_le :=
    List.sorted_insertionSort window_le _
  refine hsorted.imp ?_
  intro a b hab
  have hab : window_sort_le a b = true := hab
  unfold window_sort_le at hab
  revert hab
  cases ha : a.is_main_window <;> cases hb : b.is_main_window <;> intro hab
  · exact ⟨fun h => Bool.noConfusion h, fun _ => hab⟩
  · exact Bool.noConfusion hab
  · exact ⟨fun _ => rfl, fun h => Bool.noConfusion h⟩
  · exact ⟨fun _ => rfl, fun _ => hab⟩

/-- The secondary window's state in the concrete capture scenario. -/
def sample_window_doc0 : WindowState := ⟨"doc-0", false, none, [], sample_ui_state, none⟩

/-- Witness for C8 at the specification's example scenario: `doc-0` answers
first, then `main` (flagged as main window); the assembled session lists the
main-flagged state first, then `doc-0`. -/
theorem capture_windows_sorted_witness :
    capture_session ["main", "doc-0"] "c1" true false
        [⟨"c1", "doc-0", sample_window_doc0⟩, ⟨"c1", "main", sample_window_main⟩] 0 "0.3.18" =
      .ok ⟨SCHEMA_VERSION, 0, "0.3.18", [sample_window_main, sample_window_doc0], none⟩ ∧
    ([sample_window_main, sample_window_doc0] : List WindowState).Pairwise (fun a b =>
      (b.is_main_window = true → a.is_main_window = true) ∧
      (a.is_main_window = b.is_main_window →
        str_le a.window_label b.window_label = true)) := by
  refine ⟨rfl, ?_⟩
  have h := capture_windows_sorted ["main", "doc-0"] "c1" true false
    [⟨"c1", "doc-0", sample_window_doc0⟩, ⟨"c1", "main", sample_window_main⟩] 0 "0.3.18"
    ⟨SCHEMA_VERSION, 0, "0.3.18", [sample_window_main, sample_window_doc0], none⟩ rfl
  simpa using h

/-! ### Pull-based pending-restore structure (coordinator.rs lines 23-71,
450-479) -/

/-- Pending restore state for multi-window restoration (coordinator.rs lines
24-31): staged window states by label, the labels expected to complete, and
the labels already completed.  Hash containers are modelled as lists. -/
structure PendingRestoreState where
  window_states : List (String × WindowState)
  expected_labels : List String
  completed_windows : List String

/-- Model of `PendingRestoreState::all_complete` (coordinator.rs lines
35-38): the expected set is non-empty and every expected label has
completed. -/
def PendingRestoreState.all_complete (st : PendingRestoreState) : Bool :=
  !st.expected_labels.isEmpty &&
    st.expected_labels.all (fun label => st.completed_windows.contains label)

/-- Set insertion modelled on lists (for `HashSet::insert`): add the label
when absent. -/
def insert_label (label : String) (labels : List String) : List String :=
  if label ∈ labels then labels else labels ++ [label]

/-- Model of `mark_window_restore_complete` (coordinator.rs lines 464-479):
record completion only for expected labels, then report whether all expected
windows have completed. -/
def mark_window_restore_complete (st : PendingRestoreState) (window_label : String) :
    Bool × PendingRestoreState :=
  let st1 :=
    if window_label ∈ st.expected_labels then
      { st with completed_windows := insert_label window_label st.completed_windows }
    else st
  (st1.all_complete, st1)

/-- Model of `clear_pending_restore` / `PendingRestoreState::clear`
(coordinator.rs lines 41-45, 67-71): all three containers emptied. -/
def clear_pending_restore : PendingRestoreState := ⟨[], [], []⟩

/-- Model of `get_window_restore_state` (coordinator.rs lines 454-458):
non-destructive lookup of a staged state. -/
def get_window_restore_state (st : PendingRestoreState) (window_label : String) :
    Option WindowState :=
  lookup_response st.window_states window_label

/-! ### Claim C9: no spurious all-done with an empty expected set -/

/-- C9: whenever the expected-labels set is empty (as after
`clear_pending_restore`, or before any restore staged state),
`mark_window_restore_complete` returns false for every window label. -/
theorem mark_complete_empty_expected (st : PendingRestoreState) (label : String)
    (h : st.expected_labels = []) :
    (mark_window_restore_complete st label).1 = false := by
  unfold mark_window_restore_complete PendingRestoreState.all_complete
  rw [if_neg (by simp [h])]
  simp [h]

/-- Witness for C9 at a concrete input: after `clear_pending_restore`, the
expected set is empty and completion of `main` does not report all-done. -/
theorem mark_complete_empty_expected_witness :
    clear_pending_restore.expected_labels = [] ∧
      (mark_window_restore_complete clear_pending_restore "main").1 = false :=
  ⟨rfl, mark_complete_empty_expected clear_pending_restore "main" rfl⟩

/-! ### Restore protocols (coordinator.rs lines 263-448) -/

/-- Model of `prepare_session_for_restore` (coordinator.rs lines 264-287):
migrate when needed, otherwise require a migratable version, then reject
stale sessions. -/
def prepare_session_for_restore (now : Int) (session : SessionData) :
    Except String SessionData :=
  match
    (if needs_migration session then migrate_session session
     else if can_migrate session.version = false then .error "Incompatible session version"
     else .ok session : Except String SessionData) with
  | .error e => .error e
  | .ok s =>
    if is_stale now s.timestamp MAX_SESSION_AGE_DAYS then .error "Session is too old"
    else .ok s

/-- The main-state selection shared by both restore paths (coordinator.rs
lines 326-332 and 378-383): prefer the entry flagged `is_main_window`, fall
back to the first entry. -/
def select_main_state (session : SessionData) : Option WindowState :=
  match session.windows.find? (fun w => w.is_main_window) with
  | some w => some w
  | none => session.windows.head?

/-- Observable steps of `restore_session_multi_window`, in program order:
creation of a secondary window (at which point its content may begin
executing), the commit of the staged states into the shared pending-restore
structure, and the restore-start signal to the main window. -/
inductive RestoreEvent where
  | createWindow (label : String)
  | stageCommit
  | emitRestoreStart
deriving DecidableEq

/-- Model of the secondary-window creation loop of
`restore_session_multi_window` (coordinator.rs lines 416-437).
`create_document_window` increments the global window counter and yields the
label `doc-<counter>`; `create_ok` tells whether each creation attempt
succeeds (the counter advances even on failure).  Returns the created
labels, the prepared `(new label, re-keyed state)` pairs with
`is_main_window` forced off, and the creation events in order. -/
def create_secondary_windows : List WindowState → Nat → (Nat → Bool) →
    List String × List (String × WindowState) × List RestoreEvent
  | [], _, _ => ([], [], [])
  | w :: rest, counter, create_ok =>
    if create_ok counter then
      let label := "doc-" ++ toString counter
      let r := create_secondary_windows rest (counter + 1) create_ok
      (label :: r.1,
        (label, { w with window_label := label, is_main_window := false }) :: r.2.1,
        RestoreEvent.createWindow label :: r.2.2)
    else
      create_secondary_windows rest (counter + 1) create_ok

/-- Outcome of the multi-window restore model: the returned result, the
ordered event trace, the staged `(label, state)` pairs committed at
`stageCommit`, and the expected-label set. -/
structure MultiRestoreOutcome where
  result : Except String (List String)
  events : List RestoreEvent
  staged : List (String × WindowState)
  expected : List String

/-- Model of `restore_session_multi_window` (coordinator.rs lines 366-448):
prepare the session; require the main window; select the main state and
re-key it to the main label with `is_main_window` forced on; create one
window per non-main entry, re-keying each state to the freshly assigned
label with `is_main_window` forced off; then commit all staged state at
once (`init_pending_restore_state_sync`, line 440) and signal the main
window.  The event trace records that the creations precede the commit. -/
def restore_session_multi_window (now : Int) (session : SessionData) (main_exists : Bool)
    (counter : Nat) (create_ok : Nat → Bool) (emit_ok : Bool) : MultiRestoreOutcome :=
  match prepare_session_for_restore now session with
  | .error e => ⟨.error e, [], [], []⟩
  | .ok session =>
    if main_exists = false then ⟨.error "Main window not found", [], [], []⟩
    else
      let main_pairs : List (String × WindowState) :=
        match select_main_state session with
        | some st => [(MAIN_WINDOW_LABEL,
            { st with window_label := MAIN_WINDOW_LABEL, is_main_window := true })]
        | none => []
      let created := create_secondary_windows
        (session.windows.filter (fun w => !w.is_main_window)) counter create_ok
      let staged := main_pairs ++ created.2.1
      let expected := MAIN_WINDOW_LABEL :: created.1
      let events := created.2.2 ++ [RestoreEvent.stageCommit] ++
        (if emit_ok then [RestoreEvent.emitRestoreStart] else [])
      if emit_ok = false then
        ⟨.error "Failed to emit restore event to main", events, staged, expected⟩
      else ⟨.ok created.1, events, staged, expected⟩

/-- Outcome of the single-window restore model. -/
structure SingleRestoreOutcome where
  result : Except String Unit
  staged : List (String × WindowState)
  expected : List String

/-- Model of `restore_session` (coordinator.rs lines 307-351): prepare the
session; resolve the target window (the parameter carries the resolved label
of the main window or the first document window, `none` when neither
exists); select the main state, re-key it to the target label, stage exactly
that pair with a single-element expected set, and signal the target. -/
def restore_session (now : Int) (session : SessionData) (target_label : Option String)
    (emit_ok : Bool) : SingleRestoreOutcome :=
  match prepare_session_for_restore now session with
  | .error e => ⟨.error e, [], []⟩
  | .ok session =>
    match target_label with
    | none => ⟨.error "No document window found for restore", [], []⟩
    | some tl =>
      match select_main_state session with
      | none => ⟨.error "No window state in session", [], []⟩
      | some main_state =>
        if emit_ok = false then
          ⟨.error "Failed to emit restore event",
            [(tl, { main_state with window_label := tl })], [tl]⟩
        else ⟨.ok (), [(tl, { main_state with window_label := tl })], [tl]⟩

/-! ### Claim C1: ordering of staging and window creation -/

/-- The concrete two-window session used to exercise multi-window restore:
one main-flagged state and one secondary state, current version, fresh
timestamp. -/
def sample_session_two_windows : SessionData :=
  ⟨SCHEMA_VERSION, 0, "0.3.18", [sample_window_main, sample_window_doc0], none⟩

/-- C1 (code evaluation): running multi-window restore on a prepared session
with one secondary window produces the event trace in which the secondary
window is created (`createWindow "doc-0"`, coordinator.rs lines 416-437)
strictly before the staged state is committed to the shared pending-restore
structure (`stageCommit`, the `init_pending_restore_state_sync` call at
line 440).  The claimed invariant — staging committed strictly before the
window is created — is therefore violated by the program order itself, even
though the operation succeeds. -/
theorem multi_window_restore_creates_before_staging :
    (restore_session_multi_window 0 sample_session_two_windows true 0 (fun _ => true)
        true).result = .ok ["doc-0"] ∧
    (restore_session_multi_window 0 sample_session_two_windows true 0 (fun _ => true)
        true).events =
      [RestoreEvent.createWindow "doc-0", RestoreEvent.stageCommit,
        RestoreEvent.emitRestoreStart] :=
  ⟨rfl, rfl⟩

/-! ### Claim C10: staged states carry their keys, one main flag -/

/-- Every pair prepared by the secondary-window creation loop is keyed by
the freshly assigned label, carries that label in its state, has its main
flag forced off, and its key is of the form `doc-<n>`. -/
theorem create_secondary_windows_staged_spec (ws : List WindowState) (counter : Nat)
    (create_ok : Nat → Bool) :
    ∀ p ∈ (create_secondary_windows ws counter create_ok).2.1,
      p.2.window_label = p.1 ∧ p.2.is_main_window = false ∧
        ∃ n : Nat, p.1 = "doc-" ++ toString n := by
  induction ws generalizing counter with
  | nil => intro p hp; exact absurd hp (List.not_mem_nil p)
  | cons w rest ih =>
    intro p hp
    unfold create_secondary_windows at hp
    by_cases h : create_ok counter = true
    · rw [if_pos h] at hp
      rcases List.mem_cons.mp hp with h1 | h1
      · subst h1
        exact ⟨rfl, rfl, counter, rfl⟩
      · exact ih (counter + 1) p h1
    · rw [if_neg h] at hp
      exact ih (counter + 1) p hp

/-- A generated document-window label is never the main label. -/
theorem doc_label_ne_main (n : Nat) : ("doc-" ++ toString n) ≠ MAIN_WINDOW_LABEL := by
  intro h
  have hd := congrArg String.data h
  rw [String.data_append] at hd
  have hdoc : ("doc-" : String).data = ['d', 'o', 'c', '-'] := rfl
  have hmain : (MAIN_WINDOW_LABEL : String).data = ['m', 'a', 'i', 'n'] := rfl
  rw [hdoc, hmain] at hd
  simp at hd

/-- No pair prepared by the creation loop is flagged as a main window. -/
theorem create_secondary_windows_no_main (ws : List WindowState) (counter : Nat)
    (create_ok : Nat → Bool) :
    ((create_secondary_windows ws counter create_ok).2.1.countP
      (fun p => p.2.is_main_window)) = 0 := by
  rw [List.countP_eq_zero]
  intro p hp
  have h := (create_secondary_windows_staged_spec ws counter create_ok p hp).2.1
  simp [h]

/-- The main-state pair staged by multi-window restore. -/
def main_pairs_of (s2 : SessionData) : List (String × WindowState) :=
  match select_main_state s2 with
  | some st => [(MAIN_WINDOW_LABEL,
      { st with window_label := MAIN_WINDOW_LABEL, is_main_window := true })]
  | none => []

/-- The staged list of multi-window restore is either empty (preparation or
main-window failure) or the main pair followed by the re-keyed secondary
pairs. -/
theorem multi_staged_cases (now : Int) (session : SessionData) (main_exists : Bool)
    (counter : Nat) (create_ok : Nat → Bool) (emit_ok2 : Bool) :
    (restore_session_multi_window now session main_exists counter create_ok
        emit_ok2).staged = [] ∨
    ∃ s2, (restore_session_multi_window now session main_exists counter create_ok
        emit_ok2).staged =
      main_pairs_of s2 ++ (create_secondary_windows
        (s2.windows.filter (fun w => !w.is_main_window)) counter create_ok).2.1 := by
  unfold restore_session_multi_window
  cases hprep : prepare_session_for_restore now session with
  | error e => exact Or.inl rfl
  | ok s2 =>
    cases main_exists with
    | false => exact Or.inl rfl
    | true =>
      refine Or.inr ⟨s2, ?_⟩
      unfold main_pairs_of
      cases emit_ok2 <;> rfl

/-- C10: every state staged by `restore_session` or
`restore_session_multi_window` carries as its `window_label` exactly the key
it is staged under; in multi-window restore the entry staged under the main
label has `is_main_window` forced on and every other staged entry has it
forced off, so at most one staged state is flagged as the main window
regardless of how many entries of the input session carried the flag. -/
theorem restore_staged_label_consistent (now : Int) (session : SessionData)
    (target_label : Option String) (emit_ok1 main_exists : Bool) (counter : Nat)
    (create_ok : Nat → Bool) (emit_ok2 : Bool) :
    (∀ p ∈ (restore_session now session target_label emit_ok1).staged,
      p.2.window_label = p.1) ∧
    (∀ p ∈ (restore_session_multi_window now session main_exists counter create_ok
        emit_ok2).staged,
      p.2.window_label = p.1 ∧
        (p.1 = MAIN_WINDOW_LABEL → p.2.is_main_window = true) ∧
        (p.1 ≠ MAIN_WINDOW_LABEL → p.2.is_main_window = false)) ∧
    ((restore_session_multi_window now session main_exists counter create_ok
        emit_ok2).staged.countP (fun p => p.2.is_main_window)) ≤ 1 := by
  refine ⟨?_, ?_, ?_⟩
  · intro p hp
    unfold restore_session at hp
    cases hprep : prepare_session_for_restore now session with
    | error e => simp only [hprep] at hp; exact absurd hp (List.not_mem_nil p)
    | ok s2 =>
      simp only [hprep] at hp
      cases target_label with
      | none => exact absurd hp (List.not_mem_nil p)
      | some tl =>
        cases hms : select_main_state s2 with
        | none => simp only [hms] at hp; exact absurd hp (List.not_mem_nil p)
        | some mst =>
          simp only [hms] at hp
          cases emit_ok1
          · have hps := List.mem_singleton.mp hp
            subst hps
            rfl
          · have hps := List.mem_singleton.mp hp
            subst hps
            rfl
  · intro p hp
    rcases multi_staged_cases now session main_exists counter create_ok emit_ok2 with
      h0 | ⟨s2, hst⟩
    · rw [h0] at hp
      exact absurd hp (List.not_mem_nil p)
    · rw [hst] at hp
      rcases List.mem_append.mp hp with h1 | h1
      · unfold main_pairs_of at h1
        cases hms : select_main_state s2 with
        | none => simp only [hms] at h1; exact absurd h1 (List.not_mem_nil p)
        | some mst =>
          simp only [hms] at h1
          have hps := List.mem_singleton.mp h1
          subst hps
          exact ⟨rfl, fun _ => rfl, fun hne => absurd rfl hne⟩
      · obtain ⟨hl, hm, n, hn⟩ := create_secondary_windows_staged_spec _ _ _ p h1
        exact ⟨hl, fun hmain => absurd (hn.symm.trans hmain) (doc_label_ne_main n),
          fun _ => hm⟩
  · rcases multi_staged_cases now session main_exists counter create_ok emit_ok2 with
      h0 | ⟨s2, hst⟩
    · rw [h0]
      simp
    · rw [hst, List.countP_append]
      have h1 : (main_pairs_of s2).countP (fun p => p.2.is_main_window) ≤ 1 := by
        unfold main_pairs_of
        cases select_main_state s2 with
        | none => simp
        | some mst => simp [List.countP_cons]
      have h2 := create_secondary_windows_no_main
        (s2.windows.filter (fun w => !w.is_main_window)) counter create_ok
      omega

/-- Witness for C10 at a concrete input: in the two-window restore, the pair
staged under `main` carries `window_label = "main"` and the main flag. -/
theorem restore_staged_label_consistent_witness :
    ("main", sample_window_main) ∈
      (restore_session_multi_window 0 sample_session_two_windows true 0 (fun _ => true)
        true).staged ∧
    sample_window_main.window_label = "main" ∧
    sample_window_main.is_main_window = true := by
  have hmem : ("main", sample_window_main) ∈
      (restore_session_multi_window 0 sample_session_two_windows true 0 (fun _ => true)
        true).staged := by
    rw [show (restore_session_multi_window 0 sample_session_two_windows true 0
        (fun _ => true) true).staged =
      [("main", sample_window_main), ("doc-0", sample_window_doc0)] from rfl]
    exact List.mem_cons_self _ _
  have h := (restore_staged_label_consistent 0 sample_session_two_windows none true true 0
    (fun _ => true) true).2.1 ("main", sample_window_main) hmem
  exact ⟨hmem, h.1, h.2.1 rfl⟩

end VmarkHotExit
